import Mathlib

/-!
# Verification of the pdf-parser-api classification and extraction pipeline

Shallow embedding of the repository's PDF classification service
(`PdfClassifierService.clasificarPDF`, `verificarProteccion`), the
orchestrator (`PdfParserService.parsePdf`, `shouldUseLocalProcessing`,
the local markdown renderers) and the retrying OpenAI dispatcher
(`callOpenAIWithRetry`).

JavaScript strings are embedded as `List Char` (`Str`); JavaScript
numbers appearing in the relevant code paths are non-negative integers
(character counts, page counts, delays), embedded as `Nat`.  The one
floating-point operation, the characters-per-page ratio, is embedded by
exact comparison (`t / p > k ↔ t > k * p` for `p > 0`) together with an
explicit case for division by zero (JavaScript yields `Infinity`, which
exceeds every threshold).  Asynchronous effects (the pdf-parse library,
the OpenAI client) are embedded by passing their outcomes explicitly in
an environment record.
-/

set_option maxHeartbeats 1000000
set_option maxRecDepth 10000

/-- JavaScript strings, embedded as lists of characters. -/
abbrev Str := List Char

/-- The whitespace characters recognised by the embedding of JavaScript
`trim` / `\s`. -/
def isWsChar (c : Char) : Bool :=
  c = ' ' || c = '\t' || c = '\n' || c = '\r' || c = '\x0b' || c = '\x0c'

/-- Embedding of JavaScript `String.prototype.trim`. -/
def trimStr (l : Str) : Str :=
  ((l.dropWhile isWsChar).reverse.dropWhile isWsChar).reverse

/-- Embedding of JavaScript `String.prototype.toLowerCase` (the source
only lower-cases ASCII text). -/
def toLowerStr (l : Str) : Str := l.map Char.toLower

/-- Embedding of JavaScript `String.prototype.toUpperCase`. -/
def toUpperStr (l : Str) : Str := l.map Char.toUpper

/-- Embedding of JavaScript `String.prototype.includes`: substring test. -/
def containsSub (s sub : Str) : Bool := decide (sub <:+: s)

/-- Embedding of JavaScript `String.prototype.split(sep)` for a
one-character separator. -/
def splitOnChar (sep : Char) : Str → List Str
  | [] => [[]]
  | c :: cs =>
    let rest := splitOnChar sep cs
    if c = sep then [] :: rest
    else match rest with
      | [] => [[c]]
      | r :: rs => (c :: r) :: rs

/-- `lines.join(sep)` for string lists (JavaScript `Array.prototype.join`). -/
def joinSep (sep : Str) : List Str → Str
  | [] => []
  | [l] => l
  | l :: ls => l ++ sep ++ joinSep sep ls

/-- Concatenation of the strings produced for each element (the
`forEach (info => markdown += f info)` accumulation pattern). -/
def concatMap' (f : Str → Str) : List Str → Str
  | [] => []
  | l :: ls => f l ++ concatMap' f ls

/-- Decimal rendering of a `Nat`, for template-literal interpolation. -/
def natToStr (n : Nat) : Str := (Nat.repr n).toList

/-! ## Data model (`src/pdf-parser/types/pdf-types.ts`) -/

/-- `enum TipoPDF`. -/
inductive TipoPDF
  | nativo
  | escaneado
  | mixto
  | formulario
  | protegido
deriving DecidableEq, Repr

/-- The serialized value of each `TipoPDF` member. -/
def tipoStr : TipoPDF → Str
  | .nativo => "PDF_NATIVO".toList
  | .escaneado => "PDF_ESCANEADO".toList
  | .mixto => "PDF_MIXTO".toList
  | .formulario => "PDF_FORMULARIO".toList
  | .protegido => "PDF_PROTEGIDO".toList

/-- The four values of the `calidadTexto` field. -/
inductive CalidadTexto
  | alta
  | media
  | baja
  | sinTexto
deriving DecidableEq, Repr

/-- The serialized value of each text-quality tier. -/
def calidadStr : CalidadTexto → Str
  | .alta => "alta".toList
  | .media => "media".toList
  | .baja => "baja".toList
  | .sinTexto => "sin_texto".toList

/-- `interface ResultadoClasificacion`. -/
structure ResultadoClasificacion where
  tipo : TipoPDF
  tieneTexto : Bool
  cantidadTexto : Nat
  numeroPaginas : Nat
  requiereOCR : Bool
  tieneFormularios : Bool
  estaProtegido : Bool
  metodoExtraccion : Str
  calidadTexto : CalidadTexto
deriving DecidableEq, Repr

/-! ## Classifier inputs

`clasificarPDF` consults two libraries: `pdf-parse` (text, page count and
the document info/metadata flags) and `pdf-lib` (the interactive form
field list).  Their outcomes are passed in explicitly; the classifier's
own `try/catch` is the `Except` at the outside. -/

/-- The `info` object of a `pdf-parse` result, restricted to the flags
the classifier reads (`IsEncrypted`, `IsAcroFormPresent`; absent or
non-`true` values are `false` because the source compares with
`=== true`). -/
structure PdfInfo where
  isEncrypted : Bool
  isAcroFormPresent : Bool
deriving DecidableEq, Repr

/-- The `pdf-parse` result consumed by the classifier: extracted text,
page count, the optional `info` object and `metadata?.encrypted === true`. -/
structure ParseData where
  text : Str
  numpages : Nat
  info : Option PdfInfo
  metadataEncrypted : Bool
deriving DecidableEq, Repr

/-- The `pdf-lib` view: number of interactive form fields, or `none`
when `getForm()` threw (the source then leaves `tieneFormularios` false). -/
structure PdfLibDoc where
  formFields : Option Nat
deriving DecidableEq, Repr

/-- A thrown JavaScript error, restricted to the properties the source
inspects: `message` and `status` (`429` marks a rate-limit error). -/
structure JsError where
  message : Str
  status : Option Nat
deriving DecidableEq, Repr

/-- `verificarProteccion` (classifier, lines 238-244): the protection
check is `data.info && (IsEncrypted === true || IsAcroFormPresent === true
|| data.metadata?.encrypted === true)`. -/
def verificarProteccion (data : ParseData) : Bool :=
  match data.info with
  | none => false
  | some i => i.isEncrypted || i.isAcroFormPresent || data.metadataEncrypted

/-- The text-quality computation of `clasificarPDF` (lines 152-166) as a
function of the trimmed character count and the page count.  The source
computes `textoPorPagina = cantidadTexto / numpages` as a JavaScript
float and compares it with 500 and 100; for `numpages = 0` and a
positive count the quotient is `Infinity`, which exceeds both
thresholds. -/
def calidadDeTexto (cantidadTexto numpages : Nat) : CalidadTexto :=
  if cantidadTexto = 0 then .sinTexto
  else if numpages = 0 then .alta
  else if 500 * numpages < cantidadTexto then .alta
  else if 100 * numpages < cantidadTexto then .media
  else .baja

/-- The `textoPorPagina < 100` test of the type cascade (line 196), with
the same division-by-zero semantics (`Infinity < 100` is false). -/
def ratioBelow100 (cantidadTexto numpages : Nat) : Bool :=
  if numpages = 0 then false else cantidadTexto < 100 * numpages

/-- The safe default classification returned by the classifier's `catch`
block (lines 221-235). -/
def defaultClassification : ResultadoClasificacion where
  tipo := .escaneado
  tieneTexto := false
  cantidadTexto := 0
  numeroPaginas := 0
  requiereOCR := true
  tieneFormularios := false
  estaProtegido := false
  metodoExtraccion := "ocr_requerido".toList
  calidadTexto := .sinTexto

/-- `PdfClassifierService.clasificarPDF` (lines 141-236).  The input is
the joint outcome of the two library calls inside the `try` block; any
throw lands in the `catch` and produces `defaultClassification`. -/
def clasificarPDF (input : Except JsError (ParseData × PdfLibDoc)) :
    ResultadoClasificacion :=
  match input with
  | .error _ => defaultClassification
  | .ok (dataParse, pdfDoc) =>
    let cantidadTexto := (trimStr dataParse.text).length
    let tieneTexto : Bool := cantidadTexto > 0
    let calidadTexto := calidadDeTexto cantidadTexto dataParse.numpages
    let estaProtegido := verificarProteccion dataParse
    let tieneFormularios : Bool :=
      match pdfDoc.formFields with
      | some n => n > 0
      | none => false
    -- the `tipo` / `requiereOCR` / `metodoExtraccion` assignment cascade
    -- (lines 186-203), first match wins
    let tre : TipoPDF × Bool × Str :=
      if estaProtegido then
        (.protegido, false, "desencriptar_primero".toList)
      else if tieneFormularios then
        (.formulario, false, "extraer_formularios".toList)
      else if !tieneTexto then
        (.escaneado, true, "ocr_requerido".toList)
      else if ratioBelow100 cantidadTexto dataParse.numpages then
        (.mixto, true, "ocr_mejorado".toList)
      else
        (.nativo, false, "extraccion_directa".toList)
    { tipo := tre.1, tieneTexto, cantidadTexto,
      numeroPaginas := dataParse.numpages, requiereOCR := tre.2.1,
      tieneFormularios, estaProtegido,
      metodoExtraccion := tre.2.2, calidadTexto }

/-- The spec's notion of a protection marker ("encryption flag, or
security-metadata flags"), written from the spec's words for comparison
with the source's `verificarProteccion`; it does not include the
AcroForm-present flag, which is a form marker, not a security marker. -/
def specProtectionMarker (data : ParseData) : Bool :=
  (match data.info with
   | none => false
   | some i => i.isEncrypted) || data.metadataEncrypted

/-! ## Retry dispatcher (`callOpenAIWithRetry`, service lines 54-84)

The loop `for (attempt = 0; attempt < maxRetries; attempt++)` is embedded
with the remaining iteration count as fuel.  `attempts i` is the outcome
of the `apiCall()` made on iteration `i`; the second component of the
result collects the durations (in ms) of the `setTimeout` sleeps, in
order.  Falling off the end of the loop (only possible when
`maxRetries = 0`) returns JavaScript `undefined`, embedded as
`.ok none`. -/

/-- One unrolling of the retry loop from iteration `attempt` with `fuel`
iterations left.  On an error: a 429 before the last iteration sleeps
`2^attempt * retryDelay` and continues; the last iteration rethrows; any
other error sleeps a flat `retryDelay` and continues. -/
def retryFrom (attempts : Nat → Except JsError α) (maxRetries retryDelay : Nat) :
    Nat → Nat → Except JsError (Option α) × List Nat
  | _, 0 => (.ok none, [])
  | attempt, fuel + 1 =>
    match attempts attempt with
    | .ok v => (.ok (some v), [])
    | .error e =>
      if e.status = some 429 ∧ attempt < maxRetries - 1 then
        let r := retryFrom attempts maxRetries retryDelay (attempt + 1) fuel
        (r.1, 2 ^ attempt * retryDelay :: r.2)
      else if attempt = maxRetries - 1 then
        (.error e, [])
      else
        let r := retryFrom attempts maxRetries retryDelay (attempt + 1) fuel
        (r.1, retryDelay :: r.2)

/-- `callOpenAIWithRetry`: run the loop from iteration 0. -/
def callOpenAIWithRetry (attempts : Nat → Except JsError α)
    (maxRetries retryDelay : Nat) : Except JsError (Option α) × List Nat :=
  retryFrom attempts maxRetries retryDelay 0 maxRetries

/-! ## Orchestrator data (`parse-pdf.dto.ts`, service configuration) -/

/-- `ParsePdfDto`: caller-supplied options. -/
structure ParsePdfDto where
  instructions : Option Str
  includeAnalysis : Bool
  extractMetadata : Bool
  maxTokens : Nat
  useLocalProcessing : Bool
deriving DecidableEq, Repr

/-- The configuration flags read in the service constructor
(lines 43-48). -/
structure ServiceConfig where
  openAIEnabled : Bool
  fallbackToLocal : Bool
  maxTextLength : Nat
  useForSimplePdfsOnly : Bool
  localProcessingDefault : Bool
  localProcessingForComplex : Bool
deriving DecidableEq, Repr

/-- `shouldUseLocalProcessing` (service lines 245-312), translated
branch by branch. -/
def shouldUseLocalProcessing (cfg : ServiceConfig)
    (clasificacion : ResultadoClasificacion) (text : Str)
    (options : ParsePdfDto) : Bool :=
  if !cfg.openAIEnabled then true
  else if options.useLocalProcessing then true
  else if cfg.localProcessingDefault then true
  else if cfg.localProcessingForComplex &&
      (clasificacion.tipo = TipoPDF.protegido ||
       (clasificacion.tipo = TipoPDF.escaneado && text.length = 0) ||
       clasificacion.calidadTexto = CalidadTexto.baja ||
       clasificacion.calidadTexto = CalidadTexto.sinTexto ||
       text.length > cfg.maxTextLength ||
       (clasificacion.tipo = TipoPDF.mixto && clasificacion.requiereOCR)) then true
  else if cfg.useForSimplePdfsOnly then
    let useGPT := clasificacion.tipo = TipoPDF.nativo &&
                  clasificacion.calidadTexto = CalidadTexto.alta &&
                  text.length < cfg.maxTextLength
    !useGPT
  else false

/-- The local-vs-remote decision as the spec words it: a short-circuit OR,
in order, of the remote-disabled flag, the per-request override, the
local-default flag, the local-for-complex bucket and the
remote-for-simple-only restriction.  Written from the spec for
comparison with `shouldUseLocalProcessing`. -/
def specLocalDecision (cfg : ServiceConfig)
    (clasificacion : ResultadoClasificacion) (text : Str)
    (options : ParsePdfDto) : Bool :=
  !cfg.openAIEnabled ||
  options.useLocalProcessing ||
  cfg.localProcessingDefault ||
  (cfg.localProcessingForComplex &&
    (clasificacion.tipo = TipoPDF.protegido ||
     (clasificacion.tipo = TipoPDF.escaneado && text.length = 0) ||
     clasificacion.calidadTexto = CalidadTexto.baja ||
     clasificacion.calidadTexto = CalidadTexto.sinTexto ||
     text.length > cfg.maxTextLength ||
     (clasificacion.tipo = TipoPDF.mixto && clasificacion.requiereOCR))) ||
  (cfg.useForSimplePdfsOnly &&
    !(clasificacion.tipo = TipoPDF.nativo &&
      clasificacion.calidadTexto = CalidadTexto.alta &&
      text.length < cfg.maxTextLength))

/-! ## Regex helpers

The renderer regexes use only literal alternation, character classes,
`\s*`/`\s+`, `\d`, anchoring and the `i` flag; each is embedded as a
dedicated scanner. -/

/-- Match a literal pattern at the head of a string, returning the rest. -/
def matchLit : Str → Str → Option Str
  | [], s => some s
  | _, [] => none
  | p :: ps, c :: cs => if c = p then matchLit ps cs else none

/-- Does `s` start with literal `a`, then `\s*`, then literal `b`?
(Both literals here start with a non-space character, so the greedy
whitespace skip is equivalent to the regex.) -/
def matchSeqWs (a b s : Str) : Bool :=
  match matchLit a s with
  | none => false
  | some rest => (matchLit b (rest.dropWhile isWsChar)).isSome

/-- Unanchored search for `a\s*b` (case-sensitive; callers lower-case). -/
def findSeqWs (a b : Str) : Str → Bool
  | [] => matchSeqWs a b []
  | s@(_ :: t) => matchSeqWs a b s || findSeqWs a b t

/-- `/\$[\d,]+/`: a `$` immediately followed by a digit or comma. -/
def hasDollarAmount : Str → Bool
  | [] => false
  | c :: rest =>
    (c = '$' && (match rest with
      | d :: _ => d.isDigit || d = ','
      | [] => false)) || hasDollarAmount rest

/-- `/Policy\s*Number|Claim\s*Number|Insured|Policy\s*Period/i` on a line
(insurance bucketing, service line 346). -/
def testPolicyInfo (line : Str) : Bool :=
  let low := toLowerStr line
  findSeqWs "policy".toList "number".toList low ||
  findSeqWs "claim".toList "number".toList low ||
  containsSub low "insured".toList ||
  findSeqWs "policy".toList "period".toList low

/-- `/Coverage|Premium|Deductible|Limit|\$[\d,]+/i` (service line 348). -/
def testCoverageInfo (line : Str) : Bool :=
  let low := toLowerStr line
  containsSub low "coverage".toList ||
  containsSub low "premium".toList ||
  containsSub low "deductible".toList ||
  containsSub low "limit".toList ||
  hasDollarAmount line

/-- `/Phone|Email|Address|Contact/i` (service line 350). -/
def testContactInfo (line : Str) : Bool :=
  let low := toLowerStr line
  containsSub low "phone".toList ||
  containsSub low "email".toList ||
  containsSub low "address".toList ||
  containsSub low "contact".toList

/-! ## Local markdown renderers (service lines 314-513) -/

/-- `text.split('\n').map(l => l.trim()).filter(l => l)`: the line
pre-processing shared by all three renderers. -/
def linesOf (text : Str) : List Str :=
  ((splitOnChar '\n' text).map trimStr).filter (fun l => !l.isEmpty)

/-- The fixed insurance keyword list (service line 551). -/
def insuranceKeywords : List Str :=
  ["policy".toList, "coverage".toList, "claim".toList, "insured".toList,
   "premium".toList, "deductible".toList, "farmers".toList]

/-- `isInsuranceDocument` (service lines 550-555): at least 3 keywords
occur in the lower-cased text. -/
def isInsuranceDocument (text : Str) : Bool :=
  let lowerText := toLowerStr text
  (insuranceKeywords.filter (fun kw => containsSub lowerText kw)).length ≥ 3

/-- The bucketing loop of `processInsuranceDocument` (lines 345-355):
each line goes to the first matching bucket of
(policyInfo, coverageInfo, contactInfo, generalText); lines of length
≤ 10 matching no bucket are dropped. -/
def bucketLines : List Str → List Str × List Str × List Str × List Str
  | [] => ([], [], [], [])
  | l :: ls =>
    let r := bucketLines ls
    if testPolicyInfo l then (l :: r.1, r.2.1, r.2.2.1, r.2.2.2)
    else if testCoverageInfo l then (r.1, l :: r.2.1, r.2.2.1, r.2.2.2)
    else if testContactInfo l then (r.1, r.2.1, l :: r.2.2.1, r.2.2.2)
    else if l.length > 10 then (r.1, r.2.1, r.2.2.1, l :: r.2.2.2)
    else r

/-- Rendering of one policy-info line (lines 360-367): `key: value`
pairs are bolded, other lines passed through. -/
def renderPolicyLine (info : Str) : Str :=
  if info.contains ':' then
    let parts := splitOnChar ':' info
    let key := parts.headD []
    let value := (parts.get? 1).getD []
    "**".toList ++ trimStr key ++ ":** ".toList ++ trimStr value ++ "\n\n".toList
  else info ++ "\n\n".toList

/-- Rendering of one coverage line (lines 373-379): currency lines get a
money glyph, others a bullet. -/
def renderCoverageLine (info : Str) : Str :=
  if info.contains '$' then "💰 ".toList ++ info ++ "\n".toList
  else "- ".toList ++ info ++ "\n".toList

/-- `processInsuranceDocument` (service lines 335-399). -/
def processInsuranceDocument (text : Str) : Str :=
  let lines := linesOf text
  let b := bucketLines lines
  let policyInfo := b.1
  let coverageInfo := b.2.1
  let contactInfo := b.2.2.1
  let generalText := b.2.2.2
  "# Documento de Seguro/Póliza\n\n".toList ++
  (if policyInfo.isEmpty then [] else
    "## Información de la Póliza\n\n".toList ++
    concatMap' renderPolicyLine policyInfo) ++
  (if coverageInfo.isEmpty then [] else
    "## Coberturas y Límites\n\n".toList ++
    concatMap' renderCoverageLine coverageInfo ++ "\n".toList) ++
  (if contactInfo.isEmpty then [] else
    "## Información de Contacto\n\n".toList ++
    concatMap' (fun info => "📞 ".toList ++ info ++ "\n".toList) contactInfo ++
    "\n".toList) ++
  (if generalText.isEmpty then [] else
    "## Detalles Adicionales\n\n".toList ++
    joinSep "\n\n".toList (generalText.take 20))

/-- `processFormDocument` (service lines 402-425); the dead
`currentSection` variable is written but never read and is omitted. -/
def processFormDocument (text : Str) : Str :=
  "# Formulario\n\n".toList ++
  concatMap' (fun line =>
    if line.length < 50 && toUpperStr line = line &&
        line.any (fun c => 'A' ≤ c && c ≤ 'Z') then
      "\n## ".toList ++ line ++ "\n\n".toList
    else if line.contains ':' || containsSub line "___".toList ||
        containsSub line "[ ]".toList then
      "📝 ".toList ++ line ++ "\n".toList
    else if line.length > 10 then line ++ "\n\n".toList
    else []) (linesOf text)

/-- Is `c` an ASCII capital letter (`/[A-Z]/`)? -/
def isAsciiUpper (c : Char) : Bool := 'A' ≤ c && c ≤ 'Z'

/-- `/^(SECTION|ARTICLE|CHAPTER|PART|COVERAGE)\s+/i`. -/
def startsTitleKeyword (line : Str) : Bool :=
  let low := toLowerStr line
  ["section".toList, "article".toList, "chapter".toList, "part".toList,
   "coverage".toList].any fun kw =>
    match matchLit kw low with
    | some (c :: _) => isWsChar c
    | _ => false

/-- `/^\d+\.?\s+[A-Z]/`: digits, an optional dot, whitespace, a capital. -/
def numberedTitle (line : Str) : Bool :=
  let ds := line.takeWhile Char.isDigit
  if ds.isEmpty then false
  else
    let rest := line.drop ds.length
    let rest := match rest with
      | '.' :: r => r
      | r => r
    match rest with
    | c :: _ =>
      isWsChar c && (match rest.dropWhile isWsChar with
        | u :: _ => isAsciiUpper u
        | [] => false)
    | [] => false

/-- `isLikelyTitle` (service lines 676-689).  The `nextLine` parameter
exists in the source signature but is never read in the body. -/
def isLikelyTitle (line _nextLine : Str) : Bool :=
  if line.length > 60 || line.length < 3 then false
  else if toUpperStr line = line && line.any isAsciiUpper then true
  else if startsTitleKeyword line then true
  else numberedTitle line

/-- `isBulletPoint` (service lines 691-695). -/
def isBulletPoint (line : Str) : Bool :=
  (match line with
   | c :: d :: _ =>
     (c = '•' || c = '-' || c = '*' || c = '►' || c = '▪' || c = '◦') &&
     isWsChar d
   | _ => false) ||
  (let ds := line.takeWhile Char.isDigit
   !ds.isEmpty && (match line.drop ds.length with
     | '.' :: c :: _ => isWsChar c
     | _ => false)) ||
  (match line with
   | a :: ')' :: c :: _ => a.isAlpha && isWsChar c
   | _ => false)

/-- The bullet-marker strip `line.replace(/^[\•\-\*\►\▪\d+\.]\s*/, '')`
(line 476): one leading character of the class (note: digits, `+` and
`.`, but not `◦`) plus following whitespace is removed. -/
def stripBulletPrefix (line : Str) : Str :=
  match line with
  | c :: rest =>
    if c = '•' || c = '-' || c = '*' || c = '►' || c = '▪' ||
        c.isDigit || c = '+' || c = '.' then
      rest.dropWhile isWsChar
    else line
  | [] => line

/-- Buffer flush `if (paragraphBuffer) markdown += paragraphBuffer + '\n\n'`. -/
def flushPara (buf : Str) : Str :=
  if buf.isEmpty then [] else buf ++ "\n\n".toList

/-- The first colon's index, `line.indexOf(':')` (equals `line.length`
when absent; the source guards with `includes(':')`). -/
def colonIdx (line : Str) : Nat := (line.takeWhile (fun c => c ≠ ':')).length

/-- The line-classification loop of `processGeneralDocument`
(lines 439-509), with the `(inList, paragraphBuffer)` state threaded
explicitly; produces the markdown appended from the current position. -/
def generalLoop : List Str → Bool → Str → Str
  | [], _, buf => flushPara buf
  | line :: rest, inList, buf =>
    let nextLine := rest.headD []
    if isLikelyTitle line nextLine then
      flushPara buf ++ (if inList then "\n".toList else []) ++
      "\n## ".toList ++ line ++ "\n\n".toList ++ generalLoop rest false []
    else if line.contains ':' && colonIdx line < 50 && colonIdx line > 2 then
      let parts := splitOnChar ':' line
      let key := parts.headD []
      let value := trimStr (joinSep ":".toList parts.tail)
      if !key.isEmpty && !value.isEmpty then
        flushPara buf ++ "**".toList ++ trimStr key ++ ":** ".toList ++
        value ++ "\n\n".toList ++ generalLoop rest inList []
      else generalLoop rest inList buf
    else if isBulletPoint line then
      flushPara buf ++ "- ".toList ++ stripBulletPrefix line ++ "\n".toList ++
      generalLoop rest true []
    else
      (if inList then "\n".toList else []) ++
      (if line.length > 40 then
        let buf' := if buf.isEmpty then line else buf ++ " ".toList ++ line
        if nextLine.isEmpty || nextLine.length < 40 ||
            isLikelyTitle nextLine [] then
          buf' ++ "\n\n".toList ++ generalLoop rest false []
        else generalLoop rest false buf'
      else
        flushPara buf ++ line ++ "\n\n".toList ++ generalLoop rest false [])

/-- `processGeneralDocument` (service lines 428-513). -/
def processGeneralDocument (text : Str)
    (clasificacion : ResultadoClasificacion) : Str :=
  trimStr
    ("<!-- Procesado localmente -->\n".toList ++
     "<!-- Tipo: ".toList ++ tipoStr clasificacion.tipo ++
     ", Calidad: ".toList ++ calidadStr clasificacion.calidadTexto ++
     " -->\n\n".toList ++
     generalLoop (linesOf text) false [])

/-- `processLocalMarkdown` (service lines 315-332): placeholder for
blank input, then genre dispatch. -/
def processLocalMarkdown (text : Str)
    (clasificacion : ResultadoClasificacion) : Str :=
  if text.isEmpty || (trimStr text).isEmpty then
    "# Documento sin texto extraíble\n\nTipo: ".toList ++
    tipoStr clasificacion.tipo ++ "\nPáginas: ".toList ++
    natToStr clasificacion.numeroPaginas
  else if isInsuranceDocument text then processInsuranceDocument text
  else if clasificacion.tipo = TipoPDF.formulario then
    processFormDocument text
  else processGeneralDocument text clasificacion

/-! ## Orchestrator (`PdfParserService.parsePdf`, lines 86-242)

The external effects reaching one `parsePdf` call are collected in a
`ParseEnv`: the classifier's library outcomes, the second `pdfParse`
call, and the two OpenAI-backed calls (each the outcome of the queued
retry helper).  Wall-clock fields (`processingTime`) and the free-text
metadata fields are time- or library-dependent and are not modelled; no
claim observes them. -/

/-- The `processingMethod` values the service writes: `'local'`, `'gpt'`
and `'local_fallback'` (the spec's local / remote /
remote-with-local-fallback). -/
inductive ProcessingMethod
  | local
  | gpt
  | localFallback
deriving DecidableEq, Repr

/-- A warning entry; each source site sets `tipo`, `mensaje` and one of
the optional payloads. -/
structure Warning where
  tipo : Str
  mensaje : Str
  calidadTexto : Option CalidadTexto
  errorMsg : Option Str
  severidad : Option Str
deriving DecidableEq, Repr

/-- The metadata block, restricted to the structural fields
(`pageCount`, `isProtected`); the document-info text fields are
pass-throughs from `pdf-parse` and unobserved by every claim. -/
structure ResultMetadata where
  pageCount : Option Nat
  isProtected : Bool
deriving DecidableEq, Repr

/-- Which analysis value the orchestrator stored.  The local analyzer is
a pure function of `(text, clasificacion)`; its heuristic output is
unobserved by every claim and is kept symbolic. -/
inductive AnalysisOutcome
  | protectedStub
  | catchStub
  | remote (a : Str)
  | localAnalysis (text : Str) (clasificacion : ResultadoClasificacion)
deriving DecidableEq, Repr

/-- The object `parsePdf` resolves with. -/
structure ParseResult where
  markdown : Str
  clasificacion : Option ResultadoClasificacion
  metadata : Option ResultMetadata
  analysis : Option AnalysisOutcome
  warnings : List Warning
  success : Bool
  error : Option Str
  errorMessage : Option Str
  processingMethod : Option ProcessingMethod
deriving DecidableEq, Repr

/-- The external outcomes one `parsePdf` call can observe. -/
structure ParseEnv where
  /-- Joint outcome of `pdf(buffer)` and `PDFDocument.load(buffer)`
  inside the classifier's `try`. -/
  classifyInput : Except JsError (ParseData × PdfLibDoc)
  /-- Outcome of the `pdfParse(buffer)` call in `parsePdf` (line 132). -/
  pdfParseOutcome : Except JsError ParseData
  /-- Outcome of the queued `callOpenAIWithRetry` call inside
  `convertToMarkdown`. -/
  openAIMarkdown : Except JsError Str
  /-- Outcome of the queued `callOpenAIWithRetry` call inside
  `analyzePdfContent`. -/
  openAIAnalysis : Except JsError Str
deriving Repr

/-- `convertToMarkdown` (lines 752-811) as observed by `parsePdf`: its
own `try/catch` converts any retry-helper failure into
`HttpException('Error al procesar con OpenAI', 503)`. -/
def convertToMarkdown (env : ParseEnv) : Except JsError Str :=
  match env.openAIMarkdown with
  | .ok s => .ok s
  | .error _ =>
    .error { message := "Error al procesar con OpenAI".toList,
             status := some 503 }

/-- `analyzePdfContent` (lines 813-852) as observed by `parsePdf`: its
own `catch` returns `null` on any failure, so it never throws. -/
def analyzePdfContent (env : ParseEnv) : Option Str :=
  match env.openAIAnalysis with
  | .ok a => some a
  | .error _ => none

/-- The terminal result for a classifier-detected protected PDF
(lines 96-125). -/
def protectedResult (clasificacion : ResultadoClasificacion) : ParseResult where
  markdown := []
  clasificacion := some clasificacion
  metadata := some { pageCount := some 0, isProtected := true }
  analysis := some .protectedStub
  warnings := [{ tipo := "PDF_PROTEGIDO".toList,
                 mensaje := ("El PDF está protegido y no puede ser " ++
                   "procesado sin la contraseña").toList,
                 calidadTexto := none, errorMsg := none,
                 severidad := some "alta".toList }]
  success := false
  error := some "PDF_PROTECTED".toList
  errorMessage := none
  processingMethod := none

/-- The `catch`-block test (lines 215-217): does the lower-cased message
mention encrypt / password / protegido? -/
def containsProtectionWord (message : Str) : Bool :=
  let low := toLowerStr message
  containsSub low "encrypt".toList ||
  containsSub low "password".toList ||
  containsSub low "protegido".toList

/-- The terminal result built in the `catch` block for a
protection-flavoured error (lines 219-232). -/
def catchProtectedResult (e : JsError) : ParseResult where
  markdown := []
  clasificacion := none
  metadata := some { pageCount := none, isProtected := true }
  analysis := some .catchStub
  warnings := []
  success := false
  error := some "PDF_PROTECTED".toList
  errorMessage := some e.message
  processingMethod := none

/-- The `OCR_REQUERIDO` warning (lines 158-162). -/
def ocrWarning (clasificacion : ResultadoClasificacion) : Warning where
  tipo := "OCR_REQUERIDO".toList
  mensaje := "Este PDF es de tipo ".toList ++ tipoStr clasificacion.tipo ++
    " y puede requerir OCR para mejor extracción".toList
  calidadTexto := some clasificacion.calidadTexto
  errorMsg := none
  severidad := none

/-- The `GPT_FALLBACK` warning (lines 179-183). -/
def gptFallbackWarning (e : JsError) : Warning where
  tipo := "GPT_FALLBACK".toList
  mensaje := "Se usó procesamiento local debido a error con GPT".toList
  calidadTexto := none
  errorMsg := some e.message
  severidad := none

/-- The body of `parsePdf`'s `try` block after the protected
short-circuit (lines 128-211); a `.error` is a throw escaping to the
`catch`. -/
def parsePdfBody (cfg : ServiceConfig) (env : ParseEnv)
    (options : ParsePdfDto) (clasificacion : ResultadoClasificacion) :
    Except JsError ParseResult :=
  match env.pdfParseOutcome with
  | .error e => .error e
  | .ok pdfData =>
    let text := pdfData.text
    let useLocalProcessing :=
      shouldUseLocalProcessing cfg clasificacion text options
    let metadata :=
      if options.extractMetadata then
        some { pageCount := some pdfData.numpages, isProtected := false }
      else none
    let warnings :=
      if clasificacion.requiereOCR then [ocrWarning clasificacion] else []
    let markdownStep : Except JsError (Str × ProcessingMethod × List Warning) :=
      if useLocalProcessing then
        .ok (processLocalMarkdown text clasificacion, .local, warnings)
      else
        match convertToMarkdown env with
        | .ok md => .ok (md, .gpt, warnings)
        | .error e =>
          if cfg.fallbackToLocal then
            .ok (processLocalMarkdown text clasificacion, .localFallback,
                 warnings ++ [gptFallbackWarning e])
          else .error e
    match markdownStep with
    | .error e => .error e
    | .ok (markdown, processingMethod, warnings) =>
      let analysis : Option AnalysisOutcome :=
        if options.includeAnalysis then
          if useLocalProcessing then
            some (.localAnalysis text clasificacion)
          else
            -- `analyzePdfContent` traps its own errors and returns null,
            -- so the fallback `catch` of lines 199-206 is unreachable.
            (analyzePdfContent env).map .remote
        else none
      .ok { markdown, clasificacion := some clasificacion, metadata,
            analysis, warnings, success := true, error := none,
            errorMessage := none, processingMethod := some processingMethod }

/-- `parsePdf` (lines 86-242): classify, short-circuit protected
documents, run the body, and route any thrown error through the
protection-worded `catch`. -/
def parsePdf (cfg : ServiceConfig) (env : ParseEnv)
    (options : ParsePdfDto) : Except JsError ParseResult :=
  let clasificacion := clasificarPDF env.classifyInput
  if clasificacion.tipo = TipoPDF.protegido then
    .ok (protectedResult clasificacion)
  else
    match parsePdfBody cfg env options clasificacion with
    | .ok r => .ok r
    | .error e =>
      if containsProtectionWord e.message then
        .ok (catchProtectedResult e)
      else
        .error { message := "Error al procesar el PDF: ".toList ++ e.message,
                 status := some 500 }

/-! ## Auxiliary definitions used by the theorem statements -/

/-- All five document kinds. -/
def allTipos : List TipoPDF :=
  [.nativo, .escaneado, .mixto, .formulario, .protegido]

/-- The sleep duration the retry loop schedules after failing attempt
`i`: `2^i * retryDelay` on a 429, a flat `retryDelay` otherwise. -/
def waitFn (errAt : Nat → JsError) (retryDelay i : Nat) : Nat :=
  if (errAt i).status = some 429 then 2 ^ i * retryDelay else retryDelay

/-- The error `convertToMarkdown` rethrows on any OpenAI failure. -/
def gptConversionError : JsError where
  message := "Error al procesar con OpenAI".toList
  status := some 503

/-! ### Concrete inputs for counterexamples and witnesses -/

/-- A parse result with no encryption flag and no security metadata, but
with the AcroForm-present flag set — as `pdf-parse` reports for an
ordinary interactive form. -/
def c1Data : ParseData where
  text := ("This form document has plenty of native text spread over " ++
    "its single page").toList
  numpages := 1
  info := some { isEncrypted := false, isAcroFormPresent := true }
  metadataEncrypted := false

/-- A `pdf-lib` view of the same document: two interactive form fields. -/
def c1Doc : PdfLibDoc := { formFields := some 2 }

/-- A form document whose `pdf-parse` info lacks the AcroForm flag. -/
def c1WitData : ParseData where
  text := "Short form text".toList
  numpages := 1
  info := some { isEncrypted := false, isAcroFormPresent := false }
  metadataEncrypted := false

/-- Its `pdf-lib` view: one interactive form field. -/
def c1WitDoc : PdfLibDoc := { formFields := some 1 }

/-- An encrypted document as seen by the classifier. -/
def c2Data : ParseData where
  text := "irrelevant".toList
  numpages := 3
  info := some { isEncrypted := true, isAcroFormPresent := false }
  metadataEncrypted := false

/-- Environment for the protected-document scenario. -/
def c2Env : ParseEnv where
  classifyInput := .ok (c2Data, { formFields := none })
  pdfParseOutcome := .ok c2Data
  openAIMarkdown := .ok "unused".toList
  openAIAnalysis := .ok "unused".toList

/-- A configuration with everything enabled (the defaults). -/
def defaultCfg : ServiceConfig where
  openAIEnabled := true
  fallbackToLocal := true
  maxTextLength := 30000
  useForSimplePdfsOnly := true
  localProcessingDefault := false
  localProcessingForComplex := true

/-- Options asking for everything (the DTO defaults). -/
def defaultOpts : ParsePdfDto where
  instructions := none
  includeAnalysis := true
  extractMetadata := true
  maxTokens := 4000
  useLocalProcessing := false

/-- An attempt stream that is rate-limited forever. -/
def c3Attempts : Nat → Except JsError Str :=
  fun _ => .error { message := "rate limited".toList, status := some 429 }

/-- The matching error stream. -/
def c3Errors : Nat → JsError :=
  fun _ => { message := "rate limited".toList, status := some 429 }

/-- A native single-page document for the fallback scenario. -/
def c7Data : ParseData where
  text := "hola".toList
  numpages := 1
  info := some { isEncrypted := false, isAcroFormPresent := false }
  metadataEncrypted := false

/-- Environment in which the remote markdown conversion fails. -/
def c7Env : ParseEnv where
  classifyInput := .ok (c7Data, { formFields := none })
  pdfParseOutcome := .ok c7Data
  openAIMarkdown := .error { message := "boom".toList, status := some 500 }
  openAIAnalysis := .error { message := "boom".toList, status := some 500 }

/-- A configuration on the remote path with fallback enabled: remote
enabled, no local defaults or complex/simple routing. -/
def c7Cfg : ServiceConfig where
  openAIEnabled := true
  fallbackToLocal := true
  maxTextLength := 30000
  useForSimplePdfsOnly := false
  localProcessingDefault := false
  localProcessingForComplex := false

/-- The insurance scenario text: the two scenario lines plus three
keywords (policy, premium, coverage, insured). -/
def c8Text : Str :=
  ("Policy Number: ABC-123\nPremium: $500.00\n" ++
   "Coverage details for the insured party").toList

/-- Environment in which the post-classification `pdfParse` call throws
an encryption-worded error. -/
def c10Env : ParseEnv where
  classifyInput := .ok (c7Data, { formFields := none })
  pdfParseOutcome := .error { message := "File is Encrypted".toList,
                              status := none }
  openAIMarkdown := .ok "unused".toList
  openAIAnalysis := .ok "unused".toList

/-! ## Theorems -/

/-- The classifier copies the protection check verbatim into
`estaProtegido`. -/
theorem clasificar_estaProtegido (d : ParseData) (doc : PdfLibDoc) :
    (clasificarPDF (.ok (d, doc))).estaProtegido = verificarProteccion d :=
  rfl

/-- The classifier's quality field is `calidadDeTexto` of the trimmed
character count and page count, whatever the kind cascade does. -/
theorem clasificar_calidad (d : ParseData) (doc : PdfLibDoc) :
    (clasificarPDF (.ok (d, doc))).calidadTexto =
      calidadDeTexto (trimStr d.text).length d.numpages :=
  rfl

/-- The kind is `protegido` exactly when `verificarProteccion` fires. -/
theorem clasificar_tipo_protegido_iff (d : ParseData) (doc : PdfLibDoc) :
    (clasificarPDF (.ok (d, doc))).tipo = TipoPDF.protegido ↔
      verificarProteccion d = true := by
  unfold clasificarPDF
  cases hv : verificarProteccion d <;> simp [hv] <;> split_ifs <;> simp

/-- On a successful parse with the protection check negative and a
non-empty form-field list, the kind cascade picks `formulario`. -/
theorem clasificar_tipo_formulario (d : ParseData) (doc : PdfLibDoc) (n : Nat)
    (hprot : verificarProteccion d = false)
    (hfields : doc.formFields = some n) (hn : 0 < n) :
    (clasificarPDF (.ok (d, doc))).tipo = TipoPDF.formulario := by
  unfold clasificarPDF
  simp [hprot, hfields, hn]

/-- C1 counterexample: a document whose `pdf-parse` info carries no
encryption flag and no security metadata (`specProtectionMarker` is
false) and whose form-field set is non-empty is classified `protegido`,
not `formulario`, because `verificarProteccion` also fires on the
AcroForm-present flag. -/
theorem claim_C1_counterexample :
    specProtectionMarker c1Data = false ∧
    c1Doc.formFields = some 2 ∧
    (clasificarPDF (.ok (c1Data, c1Doc))).tipo ≠ TipoPDF.formulario ∧
    (clasificarPDF (.ok (c1Data, c1Doc))).tipo = TipoPDF.protegido := by
  refine ⟨rfl, rfl, ?_, ?_⟩ <;> decide

/-- C1 (amended): for every successfully parsed PDF, if the code's
protection check — which fires on the encryption flag, the
security-metadata flag, *and also* on the `IsAcroFormPresent` info flag —
detects nothing and the interactive form-field set is non-empty, the
classification is `formulario`; the protection decision is taken before,
and never reads, the `pdf-lib` form-field count. -/
theorem claim_C1 (d : ParseData) (doc : PdfLibDoc) (n : Nat)
    (hprot : verificarProteccion d = false)
    (hfields : doc.formFields = some n) (hn : 0 < n) :
    (clasificarPDF (.ok (d, doc))).tipo = TipoPDF.formulario ∧
    ∀ doc' : PdfLibDoc,
      (clasificarPDF (.ok (d, doc'))).estaProtegido =
        (clasificarPDF (.ok (d, doc))).estaProtegido := by
  refine ⟨clasificar_tipo_formulario d doc n hprot hfields hn, ?_⟩
  intro doc'
  rw [clasificar_estaProtegido, clasificar_estaProtegido]

/-- C1 witness: a one-field form with a clean info dictionary is
classified `formulario`. -/
theorem claim_C1_witness :
    verificarProteccion c1WitData = false ∧
    c1WitDoc.formFields = some 1 ∧
    (clasificarPDF (.ok (c1WitData, c1WitDoc))).tipo = TipoPDF.formulario :=
  ⟨rfl, rfl,
    (claim_C1 c1WitData c1WitDoc 1 rfl rfl (by decide)).1⟩

/-- C4 counterexample: at `textCharacterCount = 1, pageCount = 0` the
code computes `1 / 0 = Infinity > 500` and grades the quality `alta`
(High), not `sin_texto` (None) as the claim's undefined-ratio clause
states. -/
theorem claim_C4_counterexample :
    calidadDeTexto 1 0 = CalidadTexto.alta ∧
    calidadDeTexto 1 0 ≠ CalidadTexto.sinTexto := by
  exact ⟨rfl, by decide⟩

/-- C4 (amended): `textQuality` is the pure function `calidadDeTexto` of
`(textCharacterCount, pageCount)` alone — the classifier stores it
independently of the kind cascade — and for a positive page count the
thresholds are exactly ratio > 500 ⇒ High, 100 < ratio ≤ 500 ⇒ Medium,
0 < ratio ≤ 100 ⇒ Low, no text ⇒ None; when `pageCount = 0` the quality
is None only for empty text, and High (not None) for positive text,
because JavaScript division by zero yields `Infinity`. -/
theorem claim_C4 :
    (∀ (d : ParseData) (doc : PdfLibDoc),
      (clasificarPDF (.ok (d, doc))).calidadTexto =
        calidadDeTexto (trimStr d.text).length d.numpages) ∧
    (∀ t p : Nat, 0 < p →
      ((calidadDeTexto t p = CalidadTexto.alta ↔ 500 < (t : ℚ) / p) ∧
       (calidadDeTexto t p = CalidadTexto.media ↔
         100 < (t : ℚ) / p ∧ (t : ℚ) / p ≤ 500) ∧
       (calidadDeTexto t p = CalidadTexto.baja ↔
         0 < (t : ℚ) / p ∧ (t : ℚ) / p ≤ 100) ∧
       (calidadDeTexto t p = CalidadTexto.sinTexto ↔ t = 0))) ∧
    (∀ t : Nat, calidadDeTexto t 0 =
      if t = 0 then CalidadTexto.sinTexto else CalidadTexto.alta) := by
  refine ⟨fun d doc => rfl, ?_, ?_⟩
  · intro t p hp
    have hpq : (0 : ℚ) < p := by exact_mod_cast hp
    have h500 : 500 < (t : ℚ) / p ↔ 500 * p < t := by
      rw [lt_div_iff₀ hpq]
      exact_mod_cast Iff.rfl
    have h100 : 100 < (t : ℚ) / p ↔ 100 * p < t := by
      rw [lt_div_iff₀ hpq]
      exact_mod_cast Iff.rfl
    have h500le : (t : ℚ) / p ≤ 500 ↔ t ≤ 500 * p := by
      rw [div_le_iff₀ hpq]
      exact_mod_cast Iff.rfl
    have h100le : (t : ℚ) / p ≤ 100 ↔ t ≤ 100 * p := by
      rw [div_le_iff₀ hpq]
      exact_mod_cast Iff.rfl
    have h0 : 0 < (t : ℚ) / p ↔ 0 < t := by
      rw [lt_div_iff₀ hpq, zero_mul]
      exact_mod_cast Iff.rfl
    rw [h500, h100, h500le, h100le, h0]
    unfold calidadDeTexto
    split_ifs with h1 h2 h3 h4 <;> simp_all <;> omega
  · intro t
    unfold calidadDeTexto
    split_ifs with h1 h2 <;> first | rfl | omega

/-- C4 witness: a 2001-character, 2-page document has ratio 1000.5 > 500
and grades High; the amended theorem applied at `(2001, 2)`. -/
theorem claim_C4_witness : calidadDeTexto 2001 2 = CalidadTexto.alta :=
  (claim_C4.2.1 2001 2 (by decide)).1.mpr (by norm_num)

/-- C5: the classifier is a total function — for every parse outcome,
including any thrown error, it returns a classification whose kind is
exactly one of the five members; and on an internal parsing error it
returns the safe default (`escaneado`, OCR required, zero counts, not
protected, no form fields) instead of propagating. -/
theorem claim_C5 :
    (∀ e : JsError,
      clasificarPDF (.error e) = defaultClassification ∧
      defaultClassification.tipo = TipoPDF.escaneado ∧
      defaultClassification.requiereOCR = true ∧
      defaultClassification.cantidadTexto = 0 ∧
      defaultClassification.numeroPaginas = 0 ∧
      defaultClassification.estaProtegido = false ∧
      defaultClassification.tieneFormularios = false ∧
      defaultClassification.calidadTexto = CalidadTexto.sinTexto) ∧
    (∀ input : Except JsError (ParseData × PdfLibDoc),
      (allTipos.filter
        (fun k => (clasificarPDF input).tipo = k)).length = 1) := by
  refine ⟨fun e => ⟨rfl, rfl, rfl, rfl, rfl, rfl, rfl, rfl⟩, fun input => ?_⟩
  cases h : (clasificarPDF input).tipo <;> simp [allTipos, h]

/-- C2: whenever the classification says `estaProtegido`, its kind is
`protegido`, and `parsePdf` — for every configuration, every option set
and every outcome of the later pipeline stages — returns the terminal
protected result (empty markdown, `success = false`,
`error = PDF_PROTECTED`) without consulting extraction or the remote
path and without throwing. -/
theorem claim_C2 (cfg : ServiceConfig) (env : ParseEnv)
    (options : ParsePdfDto)
    (h : (clasificarPDF env.classifyInput).estaProtegido = true) :
    (clasificarPDF env.classifyInput).tipo = TipoPDF.protegido ∧
    parsePdf cfg env options =
      .ok (protectedResult (clasificarPDF env.classifyInput)) ∧
    (protectedResult (clasificarPDF env.classifyInput)).markdown = [] ∧
    (protectedResult (clasificarPDF env.classifyInput)).success = false ∧
    (protectedResult (clasificarPDF env.classifyInput)).error =
      some "PDF_PROTECTED".toList := by
  have htipo : (clasificarPDF env.classifyInput).tipo = TipoPDF.protegido := by
    match hi : env.classifyInput with
    | .error e =>
      rw [hi] at h
      simp [clasificarPDF, defaultClassification] at h
    | .ok (d, doc) =>
      rw [hi] at h
      rw [clasificar_estaProtegido] at h
      exact (clasificar_tipo_protegido_iff d doc).mpr h
  refine ⟨htipo, ?_, rfl, rfl, rfl⟩
  unfold parsePdf
  simp only [htipo, if_pos]

/-- C2 witness: an encrypted three-page document is classified protected
and `parsePdf` returns the terminal protected result under the default
configuration. -/
theorem claim_C2_witness :
    (clasificarPDF c2Env.classifyInput).estaProtegido = true ∧
    parsePdf defaultCfg c2Env defaultOpts =
      .ok (protectedResult (clasificarPDF c2Env.classifyInput)) :=
  ⟨by decide, (claim_C2 defaultCfg c2Env defaultOpts (by decide)).2.1⟩

/-- C6: the local-vs-remote decision equals the spec's short-circuit OR,
in its stated order, for every configuration, classification, extracted
text and option set. -/
theorem claim_C6 (cfg : ServiceConfig) (cls : ResultadoClasificacion)
    (text : Str) (options : ParsePdfDto) :
    shouldUseLocalProcessing cfg cls text options =
      specLocalDecision cfg cls text options := by
  unfold shouldUseLocalProcessing specLocalDecision
  split_ifs <;> simp_all

/-- On an all-failing attempt stream, the retry loop started at `attempt`
with matching fuel returns the last attempt's error and sleeps exactly
once between consecutive attempts, `2^i * retryDelay` after a 429 on
attempt `i` and `retryDelay` otherwise. -/
theorem retryFrom_fail {α : Type} (attempts : Nat → Except JsError α)
    (errAt : Nat → JsError) (maxRetries retryDelay : Nat)
    (hfail : ∀ i, i < maxRetries → attempts i = .error (errAt i)) :
    ∀ fuel a, a + fuel = maxRetries → 0 < fuel →
      retryFrom attempts maxRetries retryDelay a fuel =
        (.error (errAt (maxRetries - 1)),
         (List.range' a (fuel - 1)).map (waitFn errAt retryDelay)) := by
  intro fuel
  induction fuel with
  | zero => omega
  | succ f ih =>
    intro a htot _
    have ha : a < maxRetries := by omega
    have hea := hfail a ha
    unfold retryFrom
    rw [hea]
    rcases Nat.eq_zero_or_pos f with hf | hf
    · subst hf
      have hlast : a = maxRetries - 1 := by omega
      have hnotlt : ¬(a < maxRetries - 1) := by omega
      simp only [hnotlt, and_false, if_false, hlast, if_pos]
      simp
    · have hlt : a < maxRetries - 1 := by omega
      have hrec := ih (a + 1) (by omega) hf
      by_cases hs : (errAt a).status = some 429
      · simp only [hs, hlt, and_self, if_pos, hrec]
        have : f + 1 - 1 = (f - 1) + 1 := by omega
        rw [this, List.range'_succ]
        simp [waitFn, hs]
      · simp only [hs, false_and, if_false]
        have hne : ¬(a = maxRetries - 1) := by omega
        simp only [hne, if_false, hrec]
        have : f + 1 - 1 = (f - 1) + 1 := by omega
        rw [this, List.range'_succ]
        simp [waitFn, hs]

/-- The retry loop only consults attempts with index below its fuel
bound: streams agreeing there produce identical runs. -/
theorem retryFrom_congr {α : Type}
    (attempts attempts' : Nat → Except JsError α)
    (maxRetries retryDelay : Nat) :
    ∀ fuel a, (∀ i, a ≤ i → i < a + fuel → attempts' i = attempts i) →
      retryFrom attempts' maxRetries retryDelay a fuel =
        retryFrom attempts maxRetries retryDelay a fuel := by
  intro fuel
  induction fuel with
  | zero => intro a _; rfl
  | succ f ih =>
    intro a hagree
    unfold retryFrom
    rw [hagree a (le_refl a) (by omega)]
    have hrec := ih (a + 1) (fun i h1 h2 => hagree i (by omega) (by omega))
    cases attempts a with
    | ok v => rfl
    | error e => rw [hrec]

/-- C3: on an attempt stream that fails every time, the queued retry
helper (i) sleeps exactly once between consecutive attempts — after
failing attempt `i` the wait is `2^i * retryDelay` ms on a 429 and a
flat `retryDelay` ms otherwise — and propagates the error of attempt
`maxRetries - 1`, the last allowed one; (ii) never consults an attempt
with index `≥ maxRetries`; (iii) schedules strictly increasing waits
along the rate-limited attempts. -/
theorem claim_C3 {α : Type} (attempts : Nat → Except JsError α)
    (errAt : Nat → JsError) (maxRetries retryDelay : Nat)
    (hm : 0 < maxRetries)
    (hfail : ∀ i, i < maxRetries → attempts i = .error (errAt i)) :
    callOpenAIWithRetry attempts maxRetries retryDelay =
      (.error (errAt (maxRetries - 1)),
       (List.range' 0 (maxRetries - 1)).map (waitFn errAt retryDelay)) ∧
    (∀ attempts' : Nat → Except JsError α,
      (∀ i, i < maxRetries → attempts' i = attempts i) →
      callOpenAIWithRetry attempts' maxRetries retryDelay =
        callOpenAIWithRetry attempts maxRetries retryDelay) ∧
    (0 < retryDelay → ∀ i j, i < j →
      (errAt i).status = some 429 → (errAt j).status = some 429 →
      waitFn errAt retryDelay i < waitFn errAt retryDelay j) := by
  refine ⟨?_, ?_, ?_⟩
  · exact retryFrom_fail attempts errAt maxRetries retryDelay hfail
      maxRetries 0 (by omega) hm
  · intro attempts' hagree
    exact retryFrom_congr attempts attempts' maxRetries retryDelay
      maxRetries 0 (fun i h1 h2 => hagree i (by omega))
  · intro hd i j hij h4i h4j
    simp only [waitFn, h4i, h4j, if_pos]
    have hpow : 2 ^ i < 2 ^ j := Nat.pow_lt_pow_right (by norm_num) hij
    exact Nat.mul_lt_mul_of_lt_of_le hpow (le_refl retryDelay) hd

/-- C3 witness: with three permanently rate-limited attempts and a
2000 ms base delay, the run sleeps after attempts 0 and 1 and surfaces
the final error. -/
theorem claim_C3_witness :
    callOpenAIWithRetry c3Attempts 3 2000 =
      (.error (c3Errors 2),
       (List.range' 0 2).map (waitFn c3Errors 2000)) :=
  (claim_C3 c3Attempts c3Errors 3 2000 (by decide) (fun i _ => rfl)).1

/-- C10: when the pipeline body after a non-protected classification
throws, `parsePdf` inspects the message — if it mentions
encrypt/password/protegido (case-insensitively) the error is swallowed
into a terminal result with empty markdown, `success = false` and
`error = PDF_PROTECTED`, even though the classifier saw no protection;
otherwise the error is rethrown as an HTTP 500 failure. -/
theorem claim_C10 (cfg : ServiceConfig) (env : ParseEnv)
    (options : ParsePdfDto) (e : JsError)
    (hnp : (clasificarPDF env.classifyInput).tipo ≠ TipoPDF.protegido)
    (hbody : parsePdfBody cfg env options (clasificarPDF env.classifyInput) =
      .error e) :
    (containsProtectionWord e.message = true →
      parsePdf cfg env options = .ok (catchProtectedResult e) ∧
      (catchProtectedResult e).markdown = [] ∧
      (catchProtectedResult e).success = false ∧
      (catchProtectedResult e).error = some "PDF_PROTECTED".toList) ∧
    (containsProtectionWord e.message = false →
      parsePdf cfg env options =
        .error { message := "Error al procesar el PDF: ".toList ++ e.message,
                 status := some 500 }) := by
  constructor
  · intro hw
    refine ⟨?_, rfl, rfl, rfl⟩
    simp only [parsePdf]
    rw [if_neg hnp, hbody]
    simp [hw]
  · intro hw
    simp only [parsePdf]
    rw [if_neg hnp, hbody]
    simp [hw]

/-- C10 witness: the classifier reports a native document, the second
`pdfParse` call throws "File is Encrypted", and `parsePdf` returns the
terminal protected result. -/
theorem claim_C10_witness :
    (clasificarPDF c10Env.classifyInput).tipo ≠ TipoPDF.protegido ∧
    parsePdf c7Cfg c10Env defaultOpts =
      .ok (catchProtectedResult
        { message := "File is Encrypted".toList, status := none }) :=
  ⟨by decide,
    ((claim_C10 c7Cfg c10Env defaultOpts
      { message := "File is Encrypted".toList, status := none }
      (by decide) rfl).1 (by decide)).1⟩

/-- C7: on the remote rendering path, when the OpenAI markdown
conversion fails: with fallback enabled the result is rendered by the
local renderer, marked `local_fallback` (the remote-with-local-fallback
method), and exactly one `GPT_FALLBACK` warning carrying the remote
error message is appended after any pre-existing OCR warning; with
fallback disabled the error propagates as a fatal HTTP 500 failure. -/
theorem claim_C7 (cfg : ServiceConfig) (env : ParseEnv)
    (options : ParsePdfDto) (pd : ParseData) (e : JsError)
    (hnp : (clasificarPDF env.classifyInput).tipo ≠ TipoPDF.protegido)
    (hpd : env.pdfParseOutcome = .ok pd)
    (hlocal : shouldUseLocalProcessing cfg (clasificarPDF env.classifyInput)
      pd.text options = false)
    (hfail : env.openAIMarkdown = .error e) :
    (cfg.fallbackToLocal = true →
      ∃ r, parsePdf cfg env options = .ok r ∧
        r.processingMethod = some ProcessingMethod.localFallback ∧
        r.markdown =
          processLocalMarkdown pd.text (clasificarPDF env.classifyInput) ∧
        r.success = true ∧
        r.warnings =
          (if (clasificarPDF env.classifyInput).requiereOCR then
            [ocrWarning (clasificarPDF env.classifyInput)] else []) ++
          [gptFallbackWarning gptConversionError] ∧
        (gptFallbackWarning gptConversionError).errorMsg =
          some gptConversionError.message) ∧
    (cfg.fallbackToLocal = false →
      parsePdf cfg env options =
        .error { message := "Error al procesar el PDF: ".toList ++
                   gptConversionError.message,
                 status := some 500 }) := by
  have hconv : convertToMarkdown env = .error gptConversionError := by
    unfold convertToMarkdown
    rw [hfail]
    rfl
  constructor
  · intro hfb
    have hbody : parsePdfBody cfg env options (clasificarPDF env.classifyInput) =
        .ok { markdown :=
                processLocalMarkdown pd.text (clasificarPDF env.classifyInput),
              clasificacion := some (clasificarPDF env.classifyInput),
              metadata := if options.extractMetadata then
                  some { pageCount := some pd.numpages, isProtected := false }
                else none,
              analysis := if options.includeAnalysis then
                  (analyzePdfContent env).map AnalysisOutcome.remote
                else none,
              warnings := (if (clasificarPDF env.classifyInput).requiereOCR then
                  [ocrWarning (clasificarPDF env.classifyInput)] else []) ++
                [gptFallbackWarning gptConversionError],
              success := true, error := none, errorMessage := none,
              processingMethod := some ProcessingMethod.localFallback } := by
      simp only [parsePdfBody, hpd, hlocal, hconv, hfb]
      simp
    have hmain : parsePdf cfg env options =
        parsePdfBody cfg env options (clasificarPDF env.classifyInput) := by
      simp only [parsePdf]
      rw [if_neg hnp, hbody]
    exact ⟨_, hmain.trans hbody, rfl, rfl, rfl, rfl, rfl⟩
  · intro hfb
    simp only [parsePdf]
    rw [if_neg hnp]
    simp only [parsePdfBody, hpd, hlocal, hconv, hfb]
    simp [containsProtectionWord, gptConversionError, toLowerStr, containsSub]
    decide

/-- C7 witness: under a remote-path configuration with fallback enabled,
a failing OpenAI call yields the locally rendered result marked
`local_fallback` with exactly one appended `GPT_FALLBACK` warning. -/
theorem claim_C7_witness :
    ∃ r, parsePdf c7Cfg c7Env defaultOpts = .ok r ∧
      r.processingMethod = some ProcessingMethod.localFallback ∧
      r.markdown =
        processLocalMarkdown c7Data.text (clasificarPDF c7Env.classifyInput) ∧
      r.success = true ∧
      r.warnings =
        (if (clasificarPDF c7Env.classifyInput).requiereOCR then
          [ocrWarning (clasificarPDF c7Env.classifyInput)] else []) ++
        [gptFallbackWarning gptConversionError] ∧
      (gptFallbackWarning gptConversionError).errorMsg =
        some gptConversionError.message :=
  (claim_C7 c7Cfg c7Env defaultOpts c7Data
    { message := "boom".toList, status := some 500 }
    (by decide) rfl (by decide) rfl).1 rfl

/-- Extending an infix on the left. -/
theorem infix_append_left {x m : Str} (pre : Str) (h : x <:+: m) :
    x <:+: pre ++ m := by
  obtain ⟨s, t, hst⟩ := h
  exact ⟨pre ++ s, t, by rw [← hst]; simp⟩

/-- Extending an infix on the right. -/
theorem infix_append_right {x m : Str} (post : Str) (h : x <:+: m) :
    x <:+: m ++ post := by
  obtain ⟨s, t, hst⟩ := h
  exact ⟨s, t ++ post, by rw [← hst]; simp⟩

/-- Each element's rendering occurs inside the accumulated section body. -/
theorem infix_concatMap_of_mem (f : Str → Str) {a : Str} :
    ∀ {l : List Str}, a ∈ l → f a <:+: concatMap' f l := by
  intro l
  induction l with
  | nil => simp
  | cons b ls ih =>
    intro h
    unfold concatMap'
    rcases List.mem_cons.mp h with h | h
    · subst h
      exact infix_append_right _ (List.infix_refl _)
    · exact infix_append_left _ (ih h)

/-- A line matching the policy regex lands in the policy bucket. -/
theorem mem_bucket_policy {l : Str} :
    ∀ {lines : List Str}, l ∈ lines → testPolicyInfo l = true →
      l ∈ (bucketLines lines).1 := by
  intro lines
  induction lines with
  | nil => simp
  | cons b ls ih =>
    intro hl ht
    unfold bucketLines
    rcases List.mem_cons.mp hl with h | h
    · subst h
      simp [ht]
    · have hm := ih h ht
      split_ifs <;> simp [hm]

/-- A line missing the policy regex but matching the coverage regex
lands in the coverage bucket. -/
theorem mem_bucket_coverage {l : Str} :
    ∀ {lines : List Str}, l ∈ lines → testPolicyInfo l = false →
      testCoverageInfo l = true → l ∈ (bucketLines lines).2.1 := by
  intro lines
  induction lines with
  | nil => simp
  | cons b ls ih =>
    intro hl hp ht
    unfold bucketLines
    rcases List.mem_cons.mp hl with h | h
    · subst h
      simp [hp, ht]
    · have hm := ih h hp ht
      split_ifs <;> simp [hm]

/-- The six JavaScript whitespace characters are fixed by `toLower`. -/
theorem toLower_of_ws {c : Char} (h : isWsChar c = true) :
    Char.toLower c = c := by
  simp only [isWsChar, Bool.or_eq_true, decide_eq_true_eq] at h
  rcases h with ((((h | h) | h) | h) | h) | h <;> subst h <;> decide

/-- `trim` erases a string exactly when every character is whitespace. -/
theorem trimStr_eq_nil_iff {l : Str} :
    trimStr l = [] ↔ ∀ c ∈ l, isWsChar c = true := by
  unfold trimStr
  rw [List.reverse_eq_nil_iff, List.dropWhile_eq_nil_iff]
  constructor
  · intro h c hc
    rcases List.mem_append.mp
      ((List.takeWhile_append_dropWhile isWsChar l) ▸ hc) with h1 | h1
    · exact List.mem_takeWhile_imp h1
    · exact h c (List.mem_reverse.mpr h1)
  · intro h c hc
    exact h c ((List.dropWhile_sublist isWsChar).subset
      (List.mem_reverse.mp hc))

/-- A text containing (after lower-casing) a pattern with some
non-whitespace character has a non-whitespace character itself. -/
theorem exists_nonws_of_containsSub {text kw : Str}
    (h : containsSub (toLowerStr text) kw = true)
    (hch : ∃ ch ∈ kw, isWsChar ch = false) :
    ∃ c ∈ text, isWsChar c = false := by
  obtain ⟨ch, hmem, hws⟩ := hch
  have hinf : kw <:+: toLowerStr text := of_decide_eq_true h
  have hml : ch ∈ toLowerStr text := hinf.subset hmem
  obtain ⟨c, hc, hlc⟩ := List.mem_map.mp hml
  refine ⟨c, hc, ?_⟩
  by_contra hcon
  have hcw : isWsChar c = true := by
    cases hx : isWsChar c
    · exact absurd hx hcon
    · rfl
  rw [toLower_of_ws hcw] at hlc
  rw [hlc] at hcw
  rw [hcw] at hws
  simp at hws

/-- Text recognised as insurance-domain is neither empty nor blank: it
contains a non-whitespace keyword character. -/
theorem insurance_text_not_blank {text : Str}
    (hins : isInsuranceDocument text = true) :
    text.isEmpty = false ∧ (trimStr text).isEmpty = false := by
  unfold isInsuranceDocument at hins
  have hlen : 3 ≤ (insuranceKeywords.filter
      (fun kw => containsSub (toLowerStr text) kw)).length :=
    of_decide_eq_true hins
  have hne : insuranceKeywords.filter
      (fun kw => containsSub (toLowerStr text) kw) ≠ [] := by
    intro h
    rw [h] at hlen
    simp at hlen
  obtain ⟨kw, hkwmem⟩ := List.exists_mem_of_ne_nil _ hne
  obtain ⟨hkmem, hkcont⟩ := List.mem_filter.mp hkwmem
  have hall : ∀ k ∈ insuranceKeywords, ∃ ch ∈ k, isWsChar ch = false := by
    decide
  obtain ⟨c, hc, hcw⟩ :=
    exists_nonws_of_containsSub hkcont (hall kw hkmem)
  constructor
  · cases htext : text with
    | nil =>
      rw [htext] at hc
      simp at hc
    | cons a l => rfl
  · cases htr : trimStr text with
    | nil =>
      have := trimStr_eq_nil_iff.mp htr c hc
      rw [this] at hcw
      simp at hcw
    | cons a l => rfl

/-- C8: any text in which at least 3 of the insurance keywords occur is
routed to the insurance renderer; if it moreover contains the lines
`Policy Number: ABC-123` and `Premium: $500.00`, the produced markdown
has an "Información de la Póliza" section containing
`**Policy Number:** ABC-123` and a "Coberturas y Límites" section
containing the money-glyph line with `$500.00`. -/
theorem claim_C8 (text : Str) (cls : ResultadoClasificacion)
    (hkw : 3 ≤ (insuranceKeywords.filter
      (fun kw => containsSub (toLowerStr text) kw)).length)
    (h1 : "Policy Number: ABC-123".toList ∈ linesOf text)
    (h2 : "Premium: $500.00".toList ∈ linesOf text) :
    processLocalMarkdown text cls = processInsuranceDocument text ∧
    "Información de la Póliza".toList <:+: processLocalMarkdown text cls ∧
    "**Policy Number:** ABC-123".toList <:+: processLocalMarkdown text cls ∧
    "## Coberturas y Límites".toList <:+: processLocalMarkdown text cls ∧
    "💰 Premium: $500.00".toList <:+: processLocalMarkdown text cls ∧
    "$500.00".toList <:+: processLocalMarkdown text cls := by
  have hins : isInsuranceDocument text = true := by
    unfold isInsuranceDocument
    exact decide_eq_true hkw
  obtain ⟨htext, htrim⟩ := insurance_text_not_blank hins
  have hdisp : processLocalMarkdown text cls = processInsuranceDocument text := by
    unfold processLocalMarkdown
    simp [htext, htrim, hins]
  have hp : ("Policy Number: ABC-123".toList) ∈
      (bucketLines (linesOf text)).1 :=
    mem_bucket_policy h1 (by decide)
  have hc : ("Premium: $500.00".toList) ∈
      (bucketLines (linesOf text)).2.1 :=
    mem_bucket_coverage h2 (by decide) (by decide)
  have hS1 : (bucketLines (linesOf text)).1.isEmpty ≠ true := by
    cases hx : (bucketLines (linesOf text)).1 with
    | nil =>
      rw [hx] at hp
      simp at hp
    | cons a l => simp
  have hS2 : (bucketLines (linesOf text)).2.1.isEmpty ≠ true := by
    cases hx : (bucketLines (linesOf text)).2.1 with
    | nil =>
      rw [hx] at hc
      simp at hc
    | cons a l => simp
  have hmd : processInsuranceDocument text =
      "# Documento de Seguro/Póliza\n\n".toList ++
      ("## Información de la Póliza\n\n".toList ++
       concatMap' renderPolicyLine (bucketLines (linesOf text)).1) ++
      ("## Coberturas y Límites\n\n".toList ++
       concatMap' renderCoverageLine (bucketLines (linesOf text)).2.1 ++
       "\n".toList) ++
      (if (bucketLines (linesOf text)).2.2.1.isEmpty then [] else
        "## Información de Contacto\n\n".toList ++
        concatMap' (fun info => "📞 ".toList ++ info ++ "\n".toList)
          (bucketLines (linesOf text)).2.2.1 ++ "\n".toList) ++
      (if (bucketLines (linesOf text)).2.2.2.isEmpty then [] else
        "## Detalles Adicionales\n\n".toList ++
        joinSep "\n\n".toList
          ((bucketLines (linesOf text)).2.2.2.take 20)) := by
    simp only [processInsuranceDocument]
    rw [if_neg hS1, if_neg hS2]
  refine ⟨hdisp, ?_, ?_, ?_, ?_, ?_⟩ <;> rw [hdisp, hmd]
  · exact infix_append_right _ (infix_append_right _ (infix_append_right _
      (infix_append_left _ (infix_append_right _ (by decide)))))
  · exact infix_append_right _ (infix_append_right _ (infix_append_right _
      (infix_append_left _ (infix_append_left _
        ((show ("**Policy Number:** ABC-123".toList) <:+:
            renderPolicyLine "Policy Number: ABC-123".toList by decide).trans
          (infix_concatMap_of_mem renderPolicyLine hp))))))
  · exact infix_append_right _ (infix_append_right _ (infix_append_left _
      (infix_append_right _ (infix_append_right _ (by decide)))))
  · exact infix_append_right _ (infix_append_right _ (infix_append_left _
      (infix_append_right _ (infix_append_left _
        ((show ("💰 Premium: $500.00".toList) <:+:
            renderCoverageLine "Premium: $500.00".toList by decide).trans
          (infix_concatMap_of_mem renderCoverageLine hc))))))
  · exact infix_append_right _ (infix_append_right _ (infix_append_left _
      (infix_append_right _ (infix_append_left _
        ((show ("$500.00".toList) <:+:
            renderCoverageLine "Premium: $500.00".toList by decide).trans
          (infix_concatMap_of_mem renderCoverageLine hc))))))

/-- C8 witness: the three-line scenario text carries four keywords and
renders with the policy section, the bolded policy number and the
`$500.00` coverage line. -/
theorem claim_C8_witness :
    3 ≤ (insuranceKeywords.filter
      (fun kw => containsSub (toLowerStr c8Text) kw)).length ∧
    "Información de la Póliza".toList <:+:
      processLocalMarkdown c8Text defaultClassification ∧
    "**Policy Number:** ABC-123".toList <:+:
      processLocalMarkdown c8Text defaultClassification ∧
    "$500.00".toList <:+:
      processLocalMarkdown c8Text defaultClassification :=
  ⟨by decide,
   (claim_C8 c8Text defaultClassification (by decide) (by decide)
     (by decide)).2.1,
   (claim_C8 c8Text defaultClassification (by decide) (by decide)
     (by decide)).2.2.1,
   (claim_C8 c8Text defaultClassification (by decide) (by decide)
     (by decide)).2.2.2.2.2⟩
